import Mathlib

/-!
Verification development for the `init_plugin.py` scaffolding program
(`create_plugin`): a shallow embedding of its string computations, its
generated file templates, and its filesystem effects, together with
theorems about the generated project tree.

The filesystem is modelled as a pair of maps: a set of directories and a
partial map from paths to file contents.  A path is the list of its
segments relative to an abstract root.  `mkdir(parents=True, exist_ok=True)`
creates a directory and all its ancestors and fails only when some
ancestor (or the path itself) already exists as a regular file;
`Path.write_text` overwrites, failing when the target is a directory or
when its parent directory does not exist.  Exceptions are modelled by
`Except`; once a step fails, later steps do not run and the filesystem
keeps the mutations already performed (Python has no rollback).
-/

set_option maxRecDepth 8192

namespace InitPlugin

/-- Python `s.replace(old, new)` on character lists, for a non-empty
pattern (the program only replaces the non-empty literals `"-"` and
`"datasette_"`): scan left to right, replace each non-overlapping
occurrence, never re-scanning the replacement.  The `Nat` argument is
structural fuel, always called with at least the length of the string. -/
def replaceFuel (pat rep : List Char) : Nat → List Char → List Char
  | _, [] => []
  | 0, l => l
  | fuel + 1, c :: rest =>
    if pat.isPrefixOf (c :: rest) && !pat.isEmpty then
      rep ++ replaceFuel pat rep fuel (List.drop pat.length (c :: rest))
    else
      c :: replaceFuel pat rep fuel rest

/-- Python `s.replace(old, new)` for a non-empty `old`. -/
def str_replace (s old new : String) : String :=
  String.mk (replaceFuel old.data new.data s.data.length s.data)

/-- Python `s.startswith(pre)`. -/
def starts_with (s pre : String) : Bool :=
  pre.data.isPrefixOf s.data

/-- Line 26 of the source: `module_name = name.replace("-", "_")`. -/
def module_name_of (name : String) : String :=
  str_replace name "-" "_"

/-- Line 57 of the source: the entry-point key
`module_name.replace("datasette_", "")`. -/
def entry_point_key (module_name : String) : String :=
  str_replace module_name "datasette_" ""

/-- Line 23 of the source: the soft-validation warning text. -/
def warning_message : String :=
  "Warning: Plugin name should start with \x27datasette-\x27"

/-- Lines 37-62 of the source: the `pyproject.toml` template.  Literal
braces of the TOML text are written with `\x7b`/`\x7d` escapes. -/
def pyproject_content (name module_name : String) : String :=
  "[project]\n"
  ++ "name = \"" ++ name ++ "\"\n"
  ++ "version = \"0.1.0\"\n"
  ++ "description = \"A Datasette plugin\"\n"
  ++ "readme = \"README.md\"\n"
  ++ "requires-python = \">=3.10\"\n"
  ++ "license = \x7btext = \"Apache-2.0\"\x7d\n"
  ++ "authors = [\n"
  ++ "    \x7bname = \"Your Name\", email = \"you@example.com\"\x7d\n"
  ++ "]\n"
  ++ "dependencies = [\n"
  ++ "    \"datasette\"\n"
  ++ "]\n"
  ++ "[dependency-groups]\n"
  ++ "dev = [\n"
  ++ "    \"pytest\",\n"
  ++ "    \"pytest-asyncio\"\n"
  ++ "]\n"
  ++ "\n"
  ++ "[project.entry-points.datasette]\n"
  ++ entry_point_key module_name ++ " = \"" ++ module_name ++ "\"\n"
  ++ "\n"
  ++ "[build-system]\n"
  ++ "requires = [\"setuptools>=61.0\"]\n"
  ++ "build-backend = \"setuptools.build_meta\"\n"

/-- Lines 66-102 of the source: the `README.md` template. -/
def readme_content (name : String) : String :=
  "# " ++ name ++ "\n"
  ++ "\n"
  ++ "A Datasette plugin.\n"
  ++ "\n"
  ++ "## Installation\n"
  ++ "\n"
  ++ "```bash\n"
  ++ "pip install " ++ name ++ "\n"
  ++ "```\n"
  ++ "\n"
  ++ "Or install directly from this repository:\n"
  ++ "\n"
  ++ "```bash\n"
  ++ "pip install -e .\n"
  ++ "```\n"
  ++ "\n"
  ++ "## Usage\n"
  ++ "\n"
  ++ "This plugin adds [describe functionality here].\n"
  ++ "\n"
  ++ "## Configuration\n"
  ++ "\n"
  ++ "Add to your `datasette.yaml`:\n"
  ++ "\n"
  ++ "```yaml\n"
  ++ "plugins:\n"
  ++ "  " ++ name ++ ":\n"
  ++ "    option1: value1\n"
  ++ "```\n"
  ++ "\n"
  ++ "## Development\n"
  ++ "\n"
  ++ "```bash\n"
  ++ "pip install -e \".[test]\"\n"
  ++ "pytest\n"
  ++ "```\n"

/-- Lines 106-162 of the source: the module `__init__.py` template.
Lines of the template that begin with Python comment or directive
markers are written through `\n` escapes inside longer chunks. -/
def init_py_content (name : String) : String :=
  "\"\"\"\n" ++ name ++ "\n\nA Datasette plugin.\n\"\"\"\n"
  ++ "\nfrom datasette import hookimpl\n"
  ++ "\n__version__ = \"0.1.0\"\n"
  ++ "\n\n@hookimpl\n"
  ++ "def prepare_connection(conn):\n"
  ++ "    \"\"\"Register custom SQL functions.\"\"\"\n"
  ++ "    # Example: Register a custom function\n"
  ++ "    # conn.create_function(\"my_function\", 1, lambda x: x.upper())\n"
  ++ "    pass\n"
  ++ "\n\n# Uncomment and customize the hooks you need:\n"
  ++ "\n# @hookimpl\n"
  ++ "# def register_routes():\n"
  ++ "#     \"\"\"Register custom URL routes.\"\"\"\n"
  ++ "#     return [\n"
  ++ "#         (r\"^/-/my-page$\", my_page_view),\n"
  ++ "#     ]\n"
  ++ "\n\n# async def my_page_view(datasette, request):\n"
  ++ "#     from datasette import Response\n"
  ++ "#     return Response.html(\"<h1>My Custom Page</h1>\")\n"
  ++ "\n\n# @hookimpl\n"
  ++ "# def startup(datasette):\n"
  ++ "#     \"\"\"Run on server startup.\"\"\"\n"
  ++ "#     async def inner():\n"
  ++ "#         config = datasette.plugin_config(\"" ++ name ++ "\") or \x7b\x7d\n"
  ++ "#         # Initialize plugin\n"
  ++ "#         pass\n"
  ++ "#     return inner\n"
  ++ "\n\n# @hookimpl\n"
  ++ "# def menu_links(datasette, actor):\n"
  ++ "#     \"\"\"Add items to the navigation menu.\"\"\"\n"
  ++ "#     return [\n"
  ++ "#         \x7b\"href\": datasette.urls.path(\"/-/my-page\"), \"label\": \"My Feature\"\x7d\n"
  ++ "#     ]\n"
  ++ "\n\n# @hookimpl\n"
  ++ "# def render_cell(value, column, table, database, datasette, request):\n"
  ++ "#     \"\"\"Customize cell rendering in table view.\"\"\"\n"
  ++ "#     return None  # Return None to use default rendering\n"

/-- Lines 169-201 of the source: the `tests/test_<module>.py` template. -/
def test_py_content (name : String) : String :=
  "\"\"\"Tests for " ++ name ++ ".\"\"\"\n"
  ++ "\nfrom datasette.app import Datasette\nimport pytest\n"
  ++ "\n\n@pytest.mark.asyncio\n"
  ++ "async def test_plugin_is_installed():\n"
  ++ "    \"\"\"Test that the plugin is properly installed.\"\"\"\n"
  ++ "    datasette = Datasette(memory=True)\n"
  ++ "    response = await datasette.client.get(\"/-/plugins.json\")\n"
  ++ "    assert response.status_code == 200\n"
  ++ "    installed_plugins = \x7bp[\"name\"] for p in response.json()\x7d\n"
  ++ "    assert \"" ++ name ++ "\" in installed_plugins\n"
  ++ "\n\n# Add more tests for your plugin functionality:\n"
  ++ "\n# @pytest.mark.asyncio\n"
  ++ "# async def test_custom_route():\n"
  ++ "#     datasette = Datasette(memory=True)\n"
  ++ "#     response = await datasette.client.get(\"/-/my-page\")\n"
  ++ "#     assert response.status_code == 200\n"
  ++ "\n\n# @pytest.mark.asyncio\n"
  ++ "# async def test_custom_sql_function():\n"
  ++ "#     datasette = Datasette(memory=True)\n"
  ++ "#     response = await datasette.client.get(\n"
  ++ "#         \"/_memory.json?sql=select+my_function(\x27test\x27)\"\n"
  ++ "#     )\n"
  ++ "#     assert response.status_code == 200\n"

/-- Lines 205-207 of the source: the `pytest.ini` template. -/
def pytest_ini_content : String :=
  "[pytest]\nasyncio_mode = auto\n"

/-- Lines 211-224 of the source: the `.gitignore` template. -/
def gitignore_content : String :=
  "__pycache__/\n*.py[cod]\n*$py.class\n*.egg-info/\ndist/\nbuild/\n"
  ++ ".eggs/\n*.egg\n.pytest_cache/\n.coverage\nhtmlcov/\n.venv/\nvenv/\n"

/-- A filesystem path: the list of its segments below an abstract root. -/
abbrev Path := List String

/-- The filesystem: which paths are directories, and which paths hold a
regular file with which contents. -/
structure FS where
  dirs : Path → Bool
  files : Path → Option String

/-- The filesystem with no directories and no files. -/
def FS.empty : FS :=
  { dirs := fun _ => false, files := fun _ => none }

/-- All ancestors of a path, the path itself included. -/
def prefixes : Path → List Path
  | [] => [[]]
  | a :: l => [] :: (prefixes l).map (fun q => a :: q)

/-- The directory update performed by a successful
`mkdir(parents=True, exist_ok=True)`: the path and all its ancestors
become directories. -/
def mkdir_apply (p : Path) (fs : FS) : FS :=
  { fs with dirs := fun q => fs.dirs q || q.isPrefixOf p }

/-- Python `Path.mkdir(parents=True, exist_ok=True)`: fails only when
the path or one of its ancestors already exists as a regular file. -/
def mkdir_p (p : Path) (fs : FS) : Except String FS :=
  if (prefixes p).any (fun q => (fs.files q).isSome) then
    Except.error "FileExistsError"
  else
    Except.ok (mkdir_apply p fs)

/-- The file-map update performed by a successful `Path.write_text`. -/
def write_apply (p : Path) (content : String) (fs : FS) : FS :=
  { fs with files := fun q => if q = p then some content else fs.files q }

/-- Python `Path.write_text(content)`: overwrites, failing when the
target is a directory or its parent directory does not exist. -/
def write_text (p : Path) (content : String) (fs : FS) : Except String FS :=
  if fs.dirs p then Except.error "IsADirectoryError"
  else if fs.dirs p.dropLast = false then Except.error "FileNotFoundError"
  else Except.ok (write_apply p content fs)

/-- One filesystem effect of the program: a directory creation or a file
write. -/
inductive Op where
  | mkdir : Path → Op
  | write : Path → String → Op
deriving DecidableEq

/-- Interpretation of one effect. -/
def applyOp : Op → FS → Except String FS
  | Op.mkdir p, fs => mkdir_p p fs
  | Op.write p c, fs => write_text p c fs

/-- State threaded through the straight-line run: the filesystem so far
and the first uncaught exception, if any. -/
structure StepState where
  fs : FS
  err : Option String

/-- Run one effect: once an exception is pending, nothing further
executes (Python unwinds past the remaining statements). -/
def step (r : StepState) (op : Op) : StepState :=
  match r.err with
  | some _ => r
  | none =>
    match applyOp op r.fs with
    | Except.ok fs' => { fs := fs', err := none }
    | Except.error e => { fs := r.fs, err := some e }

/-- Run a sequence of effects in order. -/
def runOps (ops : List Op) (r : StepState) : StepState :=
  ops.foldl step r

/-- Line 29 of the source: `plugin_dir = output_dir / name`. -/
def plugin_dir_of (name : String) (output_dir : Path) : Path :=
  output_dir ++ [name]

/-- Line 30 of the source: `module_dir = plugin_dir / module_name`. -/
def module_dir_of (name : String) (output_dir : Path) : Path :=
  plugin_dir_of name output_dir ++ [module_name_of name]

/-- Line 31 of the source: `tests_dir = plugin_dir / "tests"`. -/
def tests_dir_of (name : String) (output_dir : Path) : Path :=
  plugin_dir_of name output_dir ++ ["tests"]

/-- Lines 33-34 of the source: the list
`[plugin_dir, module_dir, tests_dir]` of directories created, in order. -/
def dirs_of (name : String) (output_dir : Path) : List Path :=
  [plugin_dir_of name output_dir, module_dir_of name output_dir,
    tests_dir_of name output_dir]

/-- The seven file writes of the source, with their target paths and
contents, in source order (lines 63, 103, 163, 166, 202, 208, 225). -/
def writes_of (name : String) (output_dir : Path) : List (Path × String) :=
  [ (plugin_dir_of name output_dir ++ ["pyproject.toml"],
      pyproject_content name (module_name_of name)),
    (plugin_dir_of name output_dir ++ ["README.md"], readme_content name),
    (module_dir_of name output_dir ++ ["__init__.py"], init_py_content name),
    (tests_dir_of name output_dir ++ ["__init__.py"], ""),
    (tests_dir_of name output_dir ++ ["test_" ++ module_name_of name ++ ".py"],
      test_py_content name),
    (plugin_dir_of name output_dir ++ ["pytest.ini"], pytest_ini_content),
    (plugin_dir_of name output_dir ++ [".gitignore"], gitignore_content) ]

/-- All filesystem effects of `create_plugin`, in source order: the
three directory creations, then the seven writes. -/
def ops_of (name : String) (output_dir : Path) : List Op :=
  (dirs_of name output_dir).map Op.mkdir
    ++ (writes_of name output_dir).map (fun w => Op.write w.1 w.2)

/-- Rendering of a path for the printed messages. -/
def path_string (p : Path) : String :=
  String.intercalate "/" p

/-- Lines 227-231 of the source: the success messages, one list entry
per `print` call. -/
def done_prints (name : String) (output_dir : Path) : List String :=
  [ "Created plugin at: " ++ path_string (plugin_dir_of name output_dir),
    "\nNext steps:",
    "  cd " ++ path_string (plugin_dir_of name output_dir),
    "  pip install -e \x27.[test]\x27",
    "  pytest" ]

/-- Result of one invocation of `create_plugin`: the filesystem, the
uncaught exception if any, and the lines printed to standard output. -/
structure RunResult where
  fs : FS
  err : Option String
  out : List String

/-- Lines 18-231 of the source, `create_plugin(name, output_dir)`:
warn when the name lacks the `datasette-` marker, derive the module
name, create the three directories, write the seven files, and print
the next-step instructions on success. -/
def create_plugin (name : String) (output_dir : Path) (fs : FS) : RunResult :=
  let warn : List String :=
    if starts_with name "datasette-" then [] else [warning_message]
  let r := runOps (ops_of name output_dir) { fs := fs, err := none }
  { fs := r.fs, err := r.err,
    out := warn ++ (match r.err with
      | none => done_prints name output_dir
      | some _ => []) }

/-! ## Auxiliary notions used by the theorems -/

/-- The run truncated after its first `k` filesystem effects; used to
speak about the state at an intermediate point of the run. -/
def create_plugin_truncated (name : String) (output_dir : Path) (fs : FS)
    (k : Nat) : StepState :=
  runOps ((ops_of name output_dir).take k) { fs := fs, err := none }

/-- The directory state after the three `mkdir` calls. -/
def dirs_after (name : String) (output_dir : Path) (fs : FS) : FS :=
  mkdir_apply (tests_dir_of name output_dir)
    (mkdir_apply (module_dir_of name output_dir)
      (mkdir_apply (plugin_dir_of name output_dir) fs))

/-- Apply a list of writes, in order, to a file map (later writes
overwrite earlier ones). -/
def applyWrites : List (Path × String) → (Path → Option String) → Path → Option String
  | [], f => f
  | w :: t, f => applyWrites t (fun q => if q = w.1 then some w.2 else f q)

/-- The value left at a path by a list of writes, if any: the last
write targeting the path wins. -/
def lastVal : List (Path × String) → Path → Option String
  | [], _ => none
  | w :: t, q =>
    match lastVal t q with
    | some v => some v
    | none => if q = w.1 then some w.2 else none

/-- The filesystem after a fully successful run: the three directories
exist and the seven writes are applied in order. -/
def success_fs (name : String) (output_dir : Path) (fs : FS) : FS :=
  { dirs := (dirs_after name output_dir fs).dirs,
    files := applyWrites (writes_of name output_dir) fs.files }

/-- The exact condition under which the run raises no exception: none
of the three `mkdir` targets has a regular file among its ancestors (or
at the target itself), and none of the seven write targets is a
directory once the three directories exist. -/
def run_ok (name : String) (output_dir : Path) (fs : FS) : Prop :=
  (∀ d ∈ dirs_of name output_dir,
    ((prefixes d).any fun q => (fs.files q).isSome) = false)
  ∧ (∀ w ∈ writes_of name output_dir,
      (dirs_after name output_dir fs).dirs w.1 = false)

/-- The string `sub` occurs contiguously inside `s`. -/
def contains_sub (sub s : String) : Prop :=
  ∃ a b : String, s = a ++ (sub ++ b)

/-! ## Helper lemmas: strings and lists -/

theorem data_append (s t : String) : (s ++ t).data = s.data ++ t.data := by
  cases s; cases t; rfl

theorem ne_of_head (s t : String) (h : s.data.head? ≠ t.data.head?) : s ≠ t :=
  fun e => h (congrArg (fun u : String => u.data.head?) e)

theorem isPrefixOf_self {α : Type} [BEq α] [LawfulBEq α] (l : List α) :
    l.isPrefixOf l = true := by
  induction l with
  | nil => rfl
  | cons a t ih => simp [List.isPrefixOf, ih]

theorem isPrefixOf_append_left {α : Type} [BEq α] [LawfulBEq α] (l t : List α) :
    l.isPrefixOf (l ++ t) = true := by
  induction l with
  | nil => simp [List.isPrefixOf]
  | cons a l' ih => simp [List.isPrefixOf, ih]

theorem isPrefixOf_cancel {α : Type} [BEq α] [LawfulBEq α] (d a b : List α) :
    (d ++ a).isPrefixOf (d ++ b) = a.isPrefixOf b := by
  induction d with
  | nil => rfl
  | cons x d' ih => simp [List.isPrefixOf, ih]

theorem length_le_of_isPrefixOf {α : Type} [BEq α] [LawfulBEq α] :
    ∀ (a b : List α), a.isPrefixOf b = true → a.length ≤ b.length := by
  intro a
  induction a with
  | nil => intro b _; exact Nat.zero_le _
  | cons x a' ih =>
    intro b hb
    cases b with
    | nil => simp [List.isPrefixOf] at hb
    | cons y b' =>
      simp only [List.isPrefixOf, Bool.and_eq_true] at hb
      simpa [List.length_cons] using Nat.succ_le_succ (ih b' hb.2)

theorem append_not_isPrefixOf {α : Type} [BEq α] [LawfulBEq α]
    (l s : List α) (h : s ≠ []) : (l ++ s).isPrefixOf l = false := by
  cases hh : (l ++ s).isPrefixOf l with
  | false => rfl
  | true =>
    exfalso
    have := length_le_of_isPrefixOf _ _ hh
    rw [List.length_append] at this
    have hs : s.length = 0 := by omega
    exact h (List.length_eq_zero.mp hs)

theorem mem_prefixes : ∀ (p q : Path), q ∈ prefixes p ↔ q.isPrefixOf p = true := by
  intro p
  induction p with
  | nil =>
    intro q
    cases q with
    | nil => simp [prefixes, List.isPrefixOf]
    | cons x q' => simp [prefixes, List.isPrefixOf]
  | cons a l ih =>
    intro q
    cases q with
    | nil => simp [prefixes, List.isPrefixOf]
    | cons x q' =>
      simp only [prefixes, List.mem_cons, List.mem_map, List.isPrefixOf]
      constructor
      · rintro (h | ⟨q'', hq'', he⟩)
        · exact absurd h (by simp)
        · obtain ⟨he1, he2⟩ := List.cons.injEq .. ▸ he
          subst he1; subst he2
          simp [Bool.and_eq_true, (ih q'').mp hq'']
      · intro h
        simp only [Bool.and_eq_true, beq_iff_eq] at h
        exact Or.inr ⟨q', (ih q').mpr h.2, by rw [h.1]⟩

theorem applyWrites_eq_lastVal :
    ∀ (ws : List (Path × String)) (f : Path → Option String) (q : Path),
      applyWrites ws f q =
        match lastVal ws q with
        | some v => some v
        | none => f q := by
  intro ws
  induction ws with
  | nil => intro f q; rfl
  | cons w t ih =>
    intro f q
    simp only [applyWrites, lastVal, ih]
    cases lastVal t q with
    | some v => rfl
    | none =>
      by_cases hq : q = w.1 <;> simp [hq]

/-! ## Helper lemmas: the run -/

theorem runOps_cons (op : Op) (l : List Op) (r : StepState) :
    runOps (op :: l) r = runOps l (step r op) := rfl

theorem runOps_absorb (l : List Op) (fs : FS) (e : String) :
    runOps l { fs := fs, err := some e } = { fs := fs, err := some e } := by
  induction l with
  | nil => rfl
  | cons op t ih =>
    rw [runOps_cons]
    have hs : step { fs := fs, err := some e } op = { fs := fs, err := some e } := rfl
    rw [hs]
    exact ih

theorem step_mkdir_ok (p : Path) (fs : FS)
    (h : ((prefixes p).any fun q => (fs.files q).isSome) = false) :
    step { fs := fs, err := none } (Op.mkdir p)
      = { fs := mkdir_apply p fs, err := none } := by
  simp [step, applyOp, mkdir_p, h]

theorem step_mkdir_bad (p : Path) (fs : FS)
    (h : ((prefixes p).any fun q => (fs.files q).isSome) = true) :
    step { fs := fs, err := none } (Op.mkdir p)
      = { fs := fs, err := some "FileExistsError" } := by
  simp [step, applyOp, mkdir_p, h]

theorem step_write_ok (p : Path) (c : String) (fs : FS)
    (h1 : fs.dirs p = false) (h2 : fs.dirs p.dropLast = true) :
    step { fs := fs, err := none } (Op.write p c)
      = { fs := write_apply p c fs, err := none } := by
  simp [step, applyOp, write_text, h1, h2]

theorem step_write_bad_dir (p : Path) (c : String) (fs : FS)
    (h : fs.dirs p = true) :
    step { fs := fs, err := none } (Op.write p c)
      = { fs := fs, err := some "IsADirectoryError" } := by
  simp [step, applyOp, write_text, h]

theorem dirs_after_parent_plugin (name : String) (output_dir : Path) (fs : FS) :
    (dirs_after name output_dir fs).dirs (plugin_dir_of name output_dir) = true := by
  simp [dirs_after, mkdir_apply, isPrefixOf_self]

theorem dirs_after_parent_module (name : String) (output_dir : Path) (fs : FS) :
    (dirs_after name output_dir fs).dirs (module_dir_of name output_dir) = true := by
  simp [dirs_after, mkdir_apply, isPrefixOf_self]

theorem dirs_after_parent_tests (name : String) (output_dir : Path) (fs : FS) :
    (dirs_after name output_dir fs).dirs (tests_dir_of name output_dir) = true := by
  simp [dirs_after, mkdir_apply, isPrefixOf_self]

theorem create_plugin_fs_eq (name : String) (output_dir : Path) (fs : FS) :
    (create_plugin name output_dir fs).fs
      = (runOps (ops_of name output_dir) { fs := fs, err := none }).fs := rfl

theorem create_plugin_err_eq (name : String) (output_dir : Path) (fs : FS) :
    (create_plugin name output_dir fs).err
      = (runOps (ops_of name output_dir) { fs := fs, err := none }).err := rfl

theorem create_plugin_out_eq (name : String) (output_dir : Path) (fs : FS) :
    (create_plugin name output_dir fs).out
      = (if starts_with name "datasette-" then [] else [warning_message])
        ++ (match (runOps (ops_of name output_dir) { fs := fs, err := none }).err with
          | none => done_prints name output_dir
          | some _ => []) := rfl

theorem lastVal_some_mem :
    ∀ (ws : List (Path × String)) (q : Path) (v : String),
      lastVal ws q = some v → q ∈ ws.map Prod.fst := by
  intro ws
  induction ws with
  | nil => intro q v h; simp [lastVal] at h
  | cons w t ih =>
    intro q v h
    simp only [lastVal] at h
    cases hl : lastVal t q with
    | some u =>
      rw [hl] at h
      exact List.mem_cons_of_mem _ (ih q u hl)
    | none =>
      rw [hl] at h
      by_cases hq : q = w.1
      · simp [hq]
      · simp [hq] at h

theorem runOps_of_run_ok (name : String) (output_dir : Path) (fs : FS)
    (h : run_ok name output_dir fs) :
    runOps (ops_of name output_dir) { fs := fs, err := none }
      = { fs := success_fs name output_dir fs, err := none } := by
  obtain ⟨hd, hw⟩ := h
  have hg1 := hd (plugin_dir_of name output_dir) (by simp [dirs_of])
  have hg2 := hd (module_dir_of name output_dir) (by simp [dirs_of])
  have hg3 := hd (tests_dir_of name output_dir) (by simp [dirs_of])
  have hw1 : (dirs_after name output_dir fs).dirs
      (plugin_dir_of name output_dir ++ ["pyproject.toml"]) = false :=
    hw (plugin_dir_of name output_dir ++ ["pyproject.toml"],
      pyproject_content name (module_name_of name)) (by simp [writes_of])
  have hw2 : (dirs_after name output_dir fs).dirs
      (plugin_dir_of name output_dir ++ ["README.md"]) = false :=
    hw (plugin_dir_of name output_dir ++ ["README.md"], readme_content name)
      (by simp [writes_of])
  have hw3 : (dirs_after name output_dir fs).dirs
      (module_dir_of name output_dir ++ ["__init__.py"]) = false :=
    hw (module_dir_of name output_dir ++ ["__init__.py"], init_py_content name)
      (by simp [writes_of])
  have hw4 : (dirs_after name output_dir fs).dirs
      (tests_dir_of name output_dir ++ ["__init__.py"]) = false :=
    hw (tests_dir_of name output_dir ++ ["__init__.py"], "")
      (by simp [writes_of])
  have hw5 : (dirs_after name output_dir fs).dirs
      (tests_dir_of name output_dir
        ++ ["test_" ++ module_name_of name ++ ".py"]) = false :=
    hw (tests_dir_of name output_dir
      ++ ["test_" ++ module_name_of name ++ ".py"], test_py_content name)
      (by simp [writes_of])
  have hw6 : (dirs_after name output_dir fs).dirs
      (plugin_dir_of name output_dir ++ ["pytest.ini"]) = false :=
    hw (plugin_dir_of name output_dir ++ ["pytest.ini"], pytest_ini_content)
      (by simp [writes_of])
  have hw7 : (dirs_after name output_dir fs).dirs
      (plugin_dir_of name output_dir ++ [".gitignore"]) = false :=
    hw (plugin_dir_of name output_dir ++ [".gitignore"], gitignore_content)
      (by simp [writes_of])
  have hp1 : (dirs_after name output_dir fs).dirs
      ((plugin_dir_of name output_dir ++ ["pyproject.toml"]).dropLast) = true := by
    rw [show (plugin_dir_of name output_dir ++ ["pyproject.toml"]).dropLast
        = plugin_dir_of name output_dir by simp]
    exact dirs_after_parent_plugin name output_dir fs
  have hp2 : (dirs_after name output_dir fs).dirs
      ((plugin_dir_of name output_dir ++ ["README.md"]).dropLast) = true := by
    rw [show (plugin_dir_of name output_dir ++ ["README.md"]).dropLast
        = plugin_dir_of name output_dir by simp]
    exact dirs_after_parent_plugin name output_dir fs
  have hp3 : (dirs_after name output_dir fs).dirs
      ((module_dir_of name output_dir ++ ["__init__.py"]).dropLast) = true := by
    rw [show (module_dir_of name output_dir ++ ["__init__.py"]).dropLast
        = module_dir_of name output_dir by simp]
    exact dirs_after_parent_module name output_dir fs
  have hp4 : (dirs_after name output_dir fs).dirs
      ((tests_dir_of name output_dir ++ ["__init__.py"]).dropLast) = true := by
    rw [show (tests_dir_of name output_dir ++ ["__init__.py"]).dropLast
        = tests_dir_of name output_dir by simp]
    exact dirs_after_parent_tests name output_dir fs
  have hp5 : (dirs_after name output_dir fs).dirs
      ((tests_dir_of name output_dir
        ++ ["test_" ++ module_name_of name ++ ".py"]).dropLast) = true := by
    rw [show (tests_dir_of name output_dir
        ++ ["test_" ++ module_name_of name ++ ".py"]).dropLast
        = tests_dir_of name output_dir by simp]
    exact dirs_after_parent_tests name output_dir fs
  have hp6 : (dirs_after name output_dir fs).dirs
      ((plugin_dir_of name output_dir ++ ["pytest.ini"]).dropLast) = true := by
    rw [show (plugin_dir_of name output_dir ++ ["pytest.ini"]).dropLast
        = plugin_dir_of name output_dir by simp]
    exact dirs_after_parent_plugin name output_dir fs
  have hp7 : (dirs_after name output_dir fs).dirs
      ((plugin_dir_of name output_dir ++ [".gitignore"]).dropLast) = true := by
    rw [show (plugin_dir_of name output_dir ++ [".gitignore"]).dropLast
        = plugin_dir_of name output_dir by simp]
    exact dirs_after_parent_plugin name output_dir fs
  simp only [ops_of, dirs_of, writes_of, List.map, List.cons_append, List.nil_append]
  rw [runOps_cons, step_mkdir_ok (plugin_dir_of name output_dir) fs hg1]
  rw [runOps_cons, step_mkdir_ok (module_dir_of name output_dir) (mkdir_apply (plugin_dir_of name output_dir) fs) hg2]
  rw [runOps_cons, step_mkdir_ok (tests_dir_of name output_dir) (mkdir_apply (module_dir_of name output_dir) (mkdir_apply (plugin_dir_of name output_dir) fs)) hg3]
  rw [runOps_cons, step_write_ok (plugin_dir_of name output_dir ++ ["pyproject.toml"]) (pyproject_content name (module_name_of name))
    (mkdir_apply (tests_dir_of name output_dir) (mkdir_apply (module_dir_of name output_dir) (mkdir_apply (plugin_dir_of name output_dir) fs))) hw1 hp1]
  rw [runOps_cons, step_write_ok (plugin_dir_of name output_dir ++ ["README.md"]) (readme_content name)
    (write_apply (plugin_dir_of name output_dir ++ ["pyproject.toml"]) (pyproject_content name (module_name_of name))
      (mkdir_apply (tests_dir_of name output_dir) (mkdir_apply (module_dir_of name output_dir) (mkdir_apply (plugin_dir_of name output_dir) fs)))) hw2 hp2]
  rw [runOps_cons, step_write_ok (module_dir_of name output_dir ++ ["__init__.py"]) (init_py_content name)
    (write_apply (plugin_dir_of name output_dir ++ ["README.md"]) (readme_content name)
      (write_apply (plugin_dir_of name output_dir ++ ["pyproject.toml"]) (pyproject_content name (module_name_of name))
      (mkdir_apply (tests_dir_of name output_dir) (mkdir_apply (module_dir_of name output_dir) (mkdir_apply (plugin_dir_of name output_dir) fs))))) hw3 hp3]
  rw [runOps_cons, step_write_ok (tests_dir_of name output_dir ++ ["__init__.py"]) ""
    (write_apply (module_dir_of name output_dir ++ ["__init__.py"]) (init_py_content name)
      (write_apply (plugin_dir_of name output_dir ++ ["README.md"]) (readme_content name)
      (write_apply (plugin_dir_of name output_dir ++ ["pyproject.toml"]) (pyproject_content name (module_name_of name))
      (mkdir_apply (tests_dir_of name output_dir) (mkdir_apply (module_dir_of name output_dir) (mkdir_apply (plugin_dir_of name output_dir) fs)))))) hw4 hp4]
  rw [runOps_cons, step_write_ok (tests_dir_of name output_dir ++ ["test_" ++ module_name_of name ++ ".py"]) (test_py_content name)
    (write_apply (tests_dir_of name output_dir ++ ["__init__.py"]) ""
      (write_apply (module_dir_of name output_dir ++ ["__init__.py"]) (init_py_content name)
      (write_apply (plugin_dir_of name output_dir ++ ["README.md"]) (readme_content name)
      (write_apply (plugin_dir_of name output_dir ++ ["pyproject.toml"]) (pyproject_content name (module_name_of name))
      (mkdir_apply (tests_dir_of name output_dir) (mkdir_apply (module_dir_of name output_dir) (mkdir_apply (plugin_dir_of name output_dir) fs))))))) hw5 hp5]
  rw [runOps_cons, step_write_ok (plugin_dir_of name output_dir ++ ["pytest.ini"]) pytest_ini_content
    (write_apply (tests_dir_of name output_dir ++ ["test_" ++ module_name_of name ++ ".py"]) (test_py_content name)
      (write_apply (tests_dir_of name output_dir ++ ["__init__.py"]) ""
      (write_apply (module_dir_of name output_dir ++ ["__init__.py"]) (init_py_content name)
      (write_apply (plugin_dir_of name output_dir ++ ["README.md"]) (readme_content name)
      (write_apply (plugin_dir_of name output_dir ++ ["pyproject.toml"]) (pyproject_content name (module_name_of name))
      (mkdir_apply (tests_dir_of name output_dir) (mkdir_apply (module_dir_of name output_dir) (mkdir_apply (plugin_dir_of name output_dir) fs)))))))) hw6 hp6]
  rw [runOps_cons, step_write_ok (plugin_dir_of name output_dir ++ [".gitignore"]) gitignore_content
    (write_apply (plugin_dir_of name output_dir ++ ["pytest.ini"]) pytest_ini_content
      (write_apply (tests_dir_of name output_dir ++ ["test_" ++ module_name_of name ++ ".py"]) (test_py_content name)
      (write_apply (tests_dir_of name output_dir ++ ["__init__.py"]) ""
      (write_apply (module_dir_of name output_dir ++ ["__init__.py"]) (init_py_content name)
      (write_apply (plugin_dir_of name output_dir ++ ["README.md"]) (readme_content name)
      (write_apply (plugin_dir_of name output_dir ++ ["pyproject.toml"]) (pyproject_content name (module_name_of name))
      (mkdir_apply (tests_dir_of name output_dir) (mkdir_apply (module_dir_of name output_dir) (mkdir_apply (plugin_dir_of name output_dir) fs))))))))) hw7 hp7]
  rfl

theorem run_ok_of_err_none (name : String) (output_dir : Path) (fs : FS)
    (h : (runOps (ops_of name output_dir) { fs := fs, err := none }).err = none) :
    run_ok name output_dir fs := by
  have hp1 : (dirs_after name output_dir fs).dirs
      (plugin_dir_of name output_dir ++ ["pyproject.toml"]).dropLast = true := by
    rw [show (plugin_dir_of name output_dir ++ ["pyproject.toml"]).dropLast = plugin_dir_of name output_dir by simp]
    exact dirs_after_parent_plugin name output_dir fs
  have hp2 : (dirs_after name output_dir fs).dirs
      (plugin_dir_of name output_dir ++ ["README.md"]).dropLast = true := by
    rw [show (plugin_dir_of name output_dir ++ ["README.md"]).dropLast = plugin_dir_of name output_dir by simp]
    exact dirs_after_parent_plugin name output_dir fs
  have hp3 : (dirs_after name output_dir fs).dirs
      (module_dir_of name output_dir ++ ["__init__.py"]).dropLast = true := by
    rw [show (module_dir_of name output_dir ++ ["__init__.py"]).dropLast = module_dir_of name output_dir by simp]
    exact dirs_after_parent_module name output_dir fs
  have hp4 : (dirs_after name output_dir fs).dirs
      (tests_dir_of name output_dir ++ ["__init__.py"]).dropLast = true := by
    rw [show (tests_dir_of name output_dir ++ ["__init__.py"]).dropLast = tests_dir_of name output_dir by simp]
    exact dirs_after_parent_tests name output_dir fs
  have hp5 : (dirs_after name output_dir fs).dirs
      (tests_dir_of name output_dir ++ ["test_" ++ module_name_of name ++ ".py"]).dropLast = true := by
    rw [show (tests_dir_of name output_dir ++ ["test_" ++ module_name_of name ++ ".py"]).dropLast = tests_dir_of name output_dir by simp]
    exact dirs_after_parent_tests name output_dir fs
  have hp6 : (dirs_after name output_dir fs).dirs
      (plugin_dir_of name output_dir ++ ["pytest.ini"]).dropLast = true := by
    rw [show (plugin_dir_of name output_dir ++ ["pytest.ini"]).dropLast = plugin_dir_of name output_dir by simp]
    exact dirs_after_parent_plugin name output_dir fs
  have hp7 : (dirs_after name output_dir fs).dirs
      (plugin_dir_of name output_dir ++ [".gitignore"]).dropLast = true := by
    rw [show (plugin_dir_of name output_dir ++ [".gitignore"]).dropLast = plugin_dir_of name output_dir by simp]
    exact dirs_after_parent_plugin name output_dir fs
  simp only [ops_of, dirs_of, writes_of, List.map, List.cons_append, List.nil_append] at h
  rw [runOps_cons] at h
  cases hg1 : ((prefixes (plugin_dir_of name output_dir)).any fun q => (fs.files q).isSome) with
  | true =>
    rw [step_mkdir_bad (plugin_dir_of name output_dir) fs hg1, runOps_absorb] at h
    simp at h
  | false =>
    rw [step_mkdir_ok (plugin_dir_of name output_dir) fs hg1] at h
    rw [runOps_cons] at h
    cases hg2 : ((prefixes (module_dir_of name output_dir)).any fun q => (fs.files q).isSome) with
    | true =>
      rw [step_mkdir_bad (module_dir_of name output_dir) (mkdir_apply (plugin_dir_of name output_dir) fs) hg2, runOps_absorb] at h
      simp at h
    | false =>
      rw [step_mkdir_ok (module_dir_of name output_dir) (mkdir_apply (plugin_dir_of name output_dir) fs) hg2] at h
      rw [runOps_cons] at h
      cases hg3 : ((prefixes (tests_dir_of name output_dir)).any fun q => (fs.files q).isSome) with
      | true =>
        rw [step_mkdir_bad (tests_dir_of name output_dir) (mkdir_apply (module_dir_of name output_dir) (mkdir_apply (plugin_dir_of name output_dir) fs)) hg3, runOps_absorb] at h
        simp at h
      | false =>
        rw [step_mkdir_ok (tests_dir_of name output_dir) (mkdir_apply (module_dir_of name output_dir) (mkdir_apply (plugin_dir_of name output_dir) fs)) hg3] at h
        rw [runOps_cons] at h
        cases hw1 : (dirs_after name output_dir fs).dirs (plugin_dir_of name output_dir ++ ["pyproject.toml"]) with
        | true =>
          rw [step_write_bad_dir (plugin_dir_of name output_dir ++ ["pyproject.toml"]) (pyproject_content name (module_name_of name))
            (mkdir_apply (tests_dir_of name output_dir) (mkdir_apply (module_dir_of name output_dir) (mkdir_apply (plugin_dir_of name output_dir) fs))) hw1, runOps_absorb] at h
          simp [runOps] at h
        | false =>
          rw [step_write_ok (plugin_dir_of name output_dir ++ ["pyproject.toml"]) (pyproject_content name (module_name_of name))
            (mkdir_apply (tests_dir_of name output_dir) (mkdir_apply (module_dir_of name output_dir) (mkdir_apply (plugin_dir_of name output_dir) fs))) hw1 hp1] at h
          rw [runOps_cons] at h
          cases hw2 : (dirs_after name output_dir fs).dirs (plugin_dir_of name output_dir ++ ["README.md"]) with
          | true =>
            rw [step_write_bad_dir (plugin_dir_of name output_dir ++ ["README.md"]) (readme_content name)
              (write_apply (plugin_dir_of name output_dir ++ ["pyproject.toml"]) (pyproject_content name (module_name_of name)) (mkdir_apply (tests_dir_of name output_dir) (mkdir_apply (module_dir_of name output_dir) (mkdir_apply (plugin_dir_of name output_dir) fs)))) hw2, runOps_absorb] at h
            simp [runOps] at h
          | false =>
            rw [step_write_ok (plugin_dir_of name output_dir ++ ["README.md"]) (readme_content name)
              (write_apply (plugin_dir_of name output_dir ++ ["pyproject.toml"]) (pyproject_content name (module_name_of name)) (mkdir_apply (tests_dir_of name output_dir) (mkdir_apply (module_dir_of name output_dir) (mkdir_apply (plugin_dir_of name output_dir) fs)))) hw2 hp2] at h
            rw [runOps_cons] at h
            cases hw3 : (dirs_after name output_dir fs).dirs (module_dir_of name output_dir ++ ["__init__.py"]) with
            | true =>
              rw [step_write_bad_dir (module_dir_of name output_dir ++ ["__init__.py"]) (init_py_content name)
                (write_apply (plugin_dir_of name output_dir ++ ["README.md"]) (readme_content name) (write_apply (plugin_dir_of name output_dir ++ ["pyproject.toml"]) (pyproject_content name (module_name_of name)) (mkdir_apply (tests_dir_of name output_dir) (mkdir_apply (module_dir_of name output_dir) (mkdir_apply (plugin_dir_of name output_dir) fs))))) hw3, runOps_absorb] at h
              simp [runOps] at h
            | false =>
              rw [step_write_ok (module_dir_of name output_dir ++ ["__init__.py"]) (init_py_content name)
                (write_apply (plugin_dir_of name output_dir ++ ["README.md"]) (readme_content name) (write_apply (plugin_dir_of name output_dir ++ ["pyproject.toml"]) (pyproject_content name (module_name_of name)) (mkdir_apply (tests_dir_of name output_dir) (mkdir_apply (module_dir_of name output_dir) (mkdir_apply (plugin_dir_of name output_dir) fs))))) hw3 hp3] at h
              rw [runOps_cons] at h
              cases hw4 : (dirs_after name output_dir fs).dirs (tests_dir_of name output_dir ++ ["__init__.py"]) with
              | true =>
                rw [step_write_bad_dir (tests_dir_of name output_dir ++ ["__init__.py"]) ""
                  (write_apply (module_dir_of name output_dir ++ ["__init__.py"]) (init_py_content name) (write_apply (plugin_dir_of name output_dir ++ ["README.md"]) (readme_content name) (write_apply (plugin_dir_of name output_dir ++ ["pyproject.toml"]) (pyproject_content name (module_name_of name)) (mkdir_apply (tests_dir_of name output_dir) (mkdir_apply (module_dir_of name output_dir) (mkdir_apply (plugin_dir_of name output_dir) fs)))))) hw4, runOps_absorb] at h
                simp [runOps] at h
              | false =>
                rw [step_write_ok (tests_dir_of name output_dir ++ ["__init__.py"]) ""
                  (write_apply (module_dir_of name output_dir ++ ["__init__.py"]) (init_py_content name) (write_apply (plugin_dir_of name output_dir ++ ["README.md"]) (readme_content name) (write_apply (plugin_dir_of name output_dir ++ ["pyproject.toml"]) (pyproject_content name (module_name_of name)) (mkdir_apply (tests_dir_of name output_dir) (mkdir_apply (module_dir_of name output_dir) (mkdir_apply (plugin_dir_of name output_dir) fs)))))) hw4 hp4] at h
                rw [runOps_cons] at h
                cases hw5 : (dirs_after name output_dir fs).dirs (tests_dir_of name output_dir ++ ["test_" ++ module_name_of name ++ ".py"]) with
                | true =>
                  rw [step_write_bad_dir (tests_dir_of name output_dir ++ ["test_" ++ module_name_of name ++ ".py"]) (test_py_content name)
                    (write_apply (tests_dir_of name output_dir ++ ["__init__.py"]) "" (write_apply (module_dir_of name output_dir ++ ["__init__.py"]) (init_py_content name) (write_apply (plugin_dir_of name output_dir ++ ["README.md"]) (readme_content name) (write_apply (plugin_dir_of name output_dir ++ ["pyproject.toml"]) (pyproject_content name (module_name_of name)) (mkdir_apply (tests_dir_of name output_dir) (mkdir_apply (module_dir_of name output_dir) (mkdir_apply (plugin_dir_of name output_dir) fs))))))) hw5, runOps_absorb] at h
                  simp [runOps] at h
                | false =>
                  rw [step_write_ok (tests_dir_of name output_dir ++ ["test_" ++ module_name_of name ++ ".py"]) (test_py_content name)
                    (write_apply (tests_dir_of name output_dir ++ ["__init__.py"]) "" (write_apply (module_dir_of name output_dir ++ ["__init__.py"]) (init_py_content name) (write_apply (plugin_dir_of name output_dir ++ ["README.md"]) (readme_content name) (write_apply (plugin_dir_of name output_dir ++ ["pyproject.toml"]) (pyproject_content name (module_name_of name)) (mkdir_apply (tests_dir_of name output_dir) (mkdir_apply (module_dir_of name output_dir) (mkdir_apply (plugin_dir_of name output_dir) fs))))))) hw5 hp5] at h
                  rw [runOps_cons] at h
                  cases hw6 : (dirs_after name output_dir fs).dirs (plugin_dir_of name output_dir ++ ["pytest.ini"]) with
                  | true =>
                    rw [step_write_bad_dir (plugin_dir_of name output_dir ++ ["pytest.ini"]) pytest_ini_content
                      (write_apply (tests_dir_of name output_dir ++ ["test_" ++ module_name_of name ++ ".py"]) (test_py_content name) (write_apply (tests_dir_of name output_dir ++ ["__init__.py"]) "" (write_apply (module_dir_of name output_dir ++ ["__init__.py"]) (init_py_content name) (write_apply (plugin_dir_of name output_dir ++ ["README.md"]) (readme_content name) (write_apply (plugin_dir_of name output_dir ++ ["pyproject.toml"]) (pyproject_content name (module_name_of name)) (mkdir_apply (tests_dir_of name output_dir) (mkdir_apply (module_dir_of name output_dir) (mkdir_apply (plugin_dir_of name output_dir) fs)))))))) hw6, runOps_absorb] at h
                    simp [runOps] at h
                  | false =>
                    rw [step_write_ok (plugin_dir_of name output_dir ++ ["pytest.ini"]) pytest_ini_content
                      (write_apply (tests_dir_of name output_dir ++ ["test_" ++ module_name_of name ++ ".py"]) (test_py_content name) (write_apply (tests_dir_of name output_dir ++ ["__init__.py"]) "" (write_apply (module_dir_of name output_dir ++ ["__init__.py"]) (init_py_content name) (write_apply (plugin_dir_of name output_dir ++ ["README.md"]) (readme_content name) (write_apply (plugin_dir_of name output_dir ++ ["pyproject.toml"]) (pyproject_content name (module_name_of name)) (mkdir_apply (tests_dir_of name output_dir) (mkdir_apply (module_dir_of name output_dir) (mkdir_apply (plugin_dir_of name output_dir) fs)))))))) hw6 hp6] at h
                    rw [runOps_cons] at h
                    cases hw7 : (dirs_after name output_dir fs).dirs (plugin_dir_of name output_dir ++ [".gitignore"]) with
                    | true =>
                      rw [step_write_bad_dir (plugin_dir_of name output_dir ++ [".gitignore"]) gitignore_content
                        (write_apply (plugin_dir_of name output_dir ++ ["pytest.ini"]) pytest_ini_content (write_apply (tests_dir_of name output_dir ++ ["test_" ++ module_name_of name ++ ".py"]) (test_py_content name) (write_apply (tests_dir_of name output_dir ++ ["__init__.py"]) "" (write_apply (module_dir_of name output_dir ++ ["__init__.py"]) (init_py_content name) (write_apply (plugin_dir_of name output_dir ++ ["README.md"]) (readme_content name) (write_apply (plugin_dir_of name output_dir ++ ["pyproject.toml"]) (pyproject_content name (module_name_of name)) (mkdir_apply (tests_dir_of name output_dir) (mkdir_apply (module_dir_of name output_dir) (mkdir_apply (plugin_dir_of name output_dir) fs))))))))) hw7, runOps_absorb] at h
                      simp [runOps] at h
                    | false =>
                      rw [step_write_ok (plugin_dir_of name output_dir ++ [".gitignore"]) gitignore_content
                        (write_apply (plugin_dir_of name output_dir ++ ["pytest.ini"]) pytest_ini_content (write_apply (tests_dir_of name output_dir ++ ["test_" ++ module_name_of name ++ ".py"]) (test_py_content name) (write_apply (tests_dir_of name output_dir ++ ["__init__.py"]) "" (write_apply (module_dir_of name output_dir ++ ["__init__.py"]) (init_py_content name) (write_apply (plugin_dir_of name output_dir ++ ["README.md"]) (readme_content name) (write_apply (plugin_dir_of name output_dir ++ ["pyproject.toml"]) (pyproject_content name (module_name_of name)) (mkdir_apply (tests_dir_of name output_dir) (mkdir_apply (module_dir_of name output_dir) (mkdir_apply (plugin_dir_of name output_dir) fs))))))))) hw7 hp7] at h
                      constructor
                      · intro dd hdd
                        simp only [dirs_of, List.mem_cons, List.not_mem_nil, or_false] at hdd
                        rcases hdd with rfl | rfl | rfl
                        · exact hg1
                        · exact hg2
                        · exact hg3
                      · intro ww hww
                        simp only [writes_of, List.mem_cons, List.not_mem_nil, or_false] at hww
                        rcases hww with rfl | rfl | rfl | rfl | rfl | rfl | rfl
                        · exact hw1
                        · exact hw2
                        · exact hw3
                        · exact hw4
                        · exact hw5
                        · exact hw6
                        · exact hw7


theorem create_plugin_ok_iff (name : String) (output_dir : Path) (fs : FS) :
    (create_plugin name output_dir fs).err = none ↔ run_ok name output_dir fs := by
  rw [create_plugin_err_eq]
  constructor
  · exact run_ok_of_err_none name output_dir fs
  · intro h
    rw [runOps_of_run_ok name output_dir fs h]

theorem create_plugin_fs_of_ok (name : String) (output_dir : Path) (fs : FS)
    (h : run_ok name output_dir fs) :
    (create_plugin name output_dir fs).fs = success_fs name output_dir fs := by
  rw [create_plugin_fs_eq, runOps_of_run_ok name output_dir fs h]

theorem write_paths_not_dir_pre (name : String) (output_dir : Path) (fs : FS)
    (h : run_ok name output_dir fs) :
    ∀ w ∈ writes_of name output_dir,
      ((w.1.isPrefixOf (plugin_dir_of name output_dir) = false
        ∧ w.1.isPrefixOf (module_dir_of name output_dir) = false)
        ∧ w.1.isPrefixOf (tests_dir_of name output_dir) = false)
        ∧ fs.dirs w.1 = false := by
  intro w hww
  have hfalse := h.2 w hww
  simp only [dirs_after, mkdir_apply, Bool.or_eq_false_iff] at hfalse
  obtain ⟨⟨⟨h0, hP⟩, hM⟩, hT⟩ := hfalse
  exact ⟨⟨⟨hP, hM⟩, hT⟩, h0⟩

theorem run_ok_success (name : String) (output_dir : Path) (fs : FS)
    (h : run_ok name output_dir fs) :
    run_ok name output_dir (success_fs name output_dir fs) := by
  have hnp := write_paths_not_dir_pre name output_dir fs h
  constructor
  · intro d hdd
    refine List.any_eq_false.mpr ?_
    intro q hq
    have hq' := (mem_prefixes d q).mp hq
    simp only [success_fs]
    rw [applyWrites_eq_lastVal]
    cases hl : lastVal (writes_of name output_dir) q with
    | none =>
      have := List.any_eq_false.mp (h.1 d hdd) q hq
      simpa using this
    | some v =>
      exfalso
      have hm := lastVal_some_mem _ _ _ hl
      obtain ⟨w, hwmem, hq1⟩ := List.mem_map.mp hm
      subst hq1
      obtain ⟨⟨⟨hP, hM⟩, hT⟩, _⟩ := hnp w hwmem
      simp only [dirs_of, List.mem_cons, List.not_mem_nil, or_false] at hdd
      rcases hdd with rfl | rfl | rfl
      · rw [hq'] at hP; exact absurd hP (by simp)
      · rw [hq'] at hM; exact absurd hM (by simp)
      · rw [hq'] at hT; exact absurd hT (by simp)
  · intro w hww
    have hfalse := h.2 w hww
    simp only [dirs_after, mkdir_apply, Bool.or_eq_false_iff] at hfalse
    obtain ⟨⟨⟨h0, hP⟩, hM⟩, hT⟩ := hfalse
    simp [dirs_after, mkdir_apply, success_fs, h0, hP, hM, hT]

theorem success_fs_idem (name : String) (output_dir : Path) (fs : FS) :
    success_fs name output_dir (success_fs name output_dir fs)
      = success_fs name output_dir fs := by
  have hdirs : (success_fs name output_dir
      (success_fs name output_dir fs)).dirs = (success_fs name output_dir fs).dirs := by
    funext q
    simp only [success_fs, dirs_after, mkdir_apply]
    cases fs.dirs q <;>
      cases hq1 : q.isPrefixOf (plugin_dir_of name output_dir) <;>
      cases hq2 : q.isPrefixOf (module_dir_of name output_dir) <;>
      cases hq3 : q.isPrefixOf (tests_dir_of name output_dir) <;>
      simp
  have hfiles : (success_fs name output_dir
      (success_fs name output_dir fs)).files = (success_fs name output_dir fs).files := by
    funext q
    simp only [success_fs]
    cases hl : lastVal (writes_of name output_dir) q <;>
      simp [applyWrites_eq_lastVal, hl]
  cases hs1 : success_fs name output_dir (success_fs name output_dir fs)
  cases hs2 : success_fs name output_dir fs
  rw [hs1, hs2] at hdirs hfiles
  simp only [] at hdirs hfiles
  rw [FS.mk.injEq]
  exact ⟨hdirs, hfiles⟩

theorem runresult_ext (a b : RunResult) (h1 : a.fs = b.fs) (h2 : a.err = b.err)
    (h3 : a.out = b.out) : a = b := by
  cases a; cases b
  rw [RunResult.mk.injEq]
  exact ⟨h1, h2, h3⟩


/-! ## Claim theorems -/

/-- C3: for every name, output directory, and starting filesystem on
which a run of `create_plugin` succeeds, running `create_plugin` a
second time against the same target raises no error, silently
overwrites the files with the same content, and produces exactly the
same final result (filesystem, error status, and printed output) as the
single run: running twice equals running once. -/
theorem c3_second_run_is_noop (name : String) (output_dir : Path) (fs : FS)
    (h : (create_plugin name output_dir fs).err = none) :
    create_plugin name output_dir ((create_plugin name output_dir fs).fs)
      = create_plugin name output_dir fs
    ∧ (create_plugin name output_dir
        ((create_plugin name output_dir fs).fs)).err = none := by
  have hok := (create_plugin_ok_iff name output_dir fs).mp h
  have hok2 := run_ok_success name output_dir fs hok
  have hfs := create_plugin_fs_of_ok name output_dir fs hok
  have e1 := runOps_of_run_ok name output_dir fs hok
  have e2 := runOps_of_run_ok name output_dir (success_fs name output_dir fs) hok2
  have hmain : create_plugin name output_dir (success_fs name output_dir fs)
      = create_plugin name output_dir fs := by
    apply runresult_ext
    · rw [create_plugin_fs_eq name output_dir (success_fs name output_dir fs),
        create_plugin_fs_eq name output_dir fs, e1, e2]
      exact success_fs_idem name output_dir fs
    · rw [create_plugin_err_eq name output_dir (success_fs name output_dir fs),
        create_plugin_err_eq name output_dir fs, e1, e2]
    · rw [create_plugin_out_eq name output_dir (success_fs name output_dir fs),
        create_plugin_out_eq name output_dir fs, e1, e2]
  rw [hfs]
  exact ⟨hmain, by rw [hmain]; exact h⟩

/-- Witness for C3: a concrete successful run on the empty filesystem,
with the overwriting second run equal to the first. -/
theorem c3_second_run_is_noop_witness :
    (create_plugin "datasette-hello" [] FS.empty).err = none
    ∧ (create_plugin "datasette-hello" []
        ((create_plugin "datasette-hello" [] FS.empty).fs)
        = create_plugin "datasette-hello" [] FS.empty
      ∧ (create_plugin "datasette-hello" []
          ((create_plugin "datasette-hello" [] FS.empty).fs)).err = none) :=
  ⟨rfl, c3_second_run_is_noop "datasette-hello" [] FS.empty rfl⟩


/-! ## String characterization lemmas -/

theorem replaceFuel_single_char (c₀ c₁ : Char) :
    ∀ (s : List Char) (fuel : Nat), s.length ≤ fuel →
      replaceFuel [c₀] [c₁] fuel s = s.map (fun c => if c = c₀ then c₁ else c) := by
  intro s
  induction s with
  | nil =>
    intro fuel _
    cases fuel <;> simp [replaceFuel]
  | cons c rest ih =>
    intro fuel hf
    cases fuel with
    | zero => simp at hf
    | succ f =>
      have hlen : rest.length ≤ f := by
        simp only [List.length_cons] at hf
        omega
      by_cases hc : c₀ = c
      · subst hc
        simp [replaceFuel, List.isPrefixOf, ih _ hlen]
      · simp [replaceFuel, List.isPrefixOf, hc, Ne.symm hc, ih _ hlen]

/-- Python-style split of a character list on a non-empty pattern,
scanning left to right with the same non-overlapping discipline as
`replaceFuel`; used to characterize replacement by the empty string. -/
def splitFuel (pat : List Char) : Nat → List Char → List (List Char)
  | _, [] => [[]]
  | 0, l => [l]
  | fuel + 1, c :: rest =>
    if pat.isPrefixOf (c :: rest) && !pat.isEmpty then
      [] :: splitFuel pat fuel (List.drop pat.length (c :: rest))
    else
      match splitFuel pat fuel rest with
      | [] => [[c]]
      | h :: t => (c :: h) :: t

theorem splitFuel_ne_nil (pat : List Char) :
    ∀ (fuel : Nat) (s : List Char), splitFuel pat fuel s ≠ [] := by
  intro fuel s
  cases s with
  | nil => simp [splitFuel]
  | cons c rest =>
    cases fuel with
    | zero => simp [splitFuel]
    | succ f =>
      simp only [splitFuel]
      by_cases hcond : (pat.isPrefixOf (c :: rest) && !pat.isEmpty) = true
      · simp [hcond]
      · simp only [Bool.not_eq_true] at hcond
        cases h : splitFuel pat f rest with
        | nil => simp [hcond, h]
        | cons hh tt => simp [hcond, h]

theorem replaceFuel_nil_rep_join (pat : List Char) :
    ∀ (fuel : Nat) (s : List Char),
      replaceFuel pat [] fuel s = (splitFuel pat fuel s).flatten := by
  intro fuel
  induction fuel with
  | zero => intro s; cases s <;> simp [replaceFuel, splitFuel]
  | succ f ih =>
    intro s
    cases s with
    | nil => simp [replaceFuel, splitFuel]
    | cons c rest =>
      simp only [replaceFuel, splitFuel]
      by_cases hcond : (pat.isPrefixOf (c :: rest) && !pat.isEmpty) = true
      · simp [hcond, ih]
      · simp only [Bool.not_eq_true] at hcond
        cases h : splitFuel pat f rest with
        | nil => exact absurd h (splitFuel_ne_nil pat f rest)
        | cons hh tt => simp [hcond, h, ih]

/-- Modelled from the claim text of C1 (for comparison only): remove
`pre` from `s` only when it occurs as a leading prefix. -/
def strip_only_leading (pre s : String) : String :=
  if pre.data.isPrefixOf s.data then String.mk (s.data.drop pre.data.length) else s

/-- C2: `moduleName` is the plugin name with every occurrence of the
separator `-` replaced by `_`: it equals the character-by-character
image of the name under the substitution sending `-` to `_` and fixing
everything else (hence it is a pure deterministic function of the name
alone, applied uniformly regardless of the name's casing), and it has
exactly the name's length. -/
theorem c2_module_name_characterization (name : String) :
    module_name_of name
      = String.mk (name.data.map fun c => if c = '-' then '_' else c)
    ∧ (module_name_of name).length = name.length := by
  have h := replaceFuel_single_char '-' '_' name.data name.data.length (le_refl _)
  constructor
  · show String.mk (replaceFuel ("-").data ("_").data name.data.length name.data) = _
    rw [show ("-" : String).data = ['-'] from rfl,
      show ("_" : String).data = ['_'] from rfl, h]
  · show (String.mk (replaceFuel ("-").data ("_").data name.data.length name.data)).length
      = name.length
    rw [show ("-" : String).data = ['-'] from rfl,
      show ("_" : String).data = ['_'] from rfl, h]
    show (List.map (fun c => if c = '-' then '_' else c) name.data).length
      = name.data.length
    exact List.length_map name.data _

/-- C1 counterexample: for the plugin name `my-datasette-plugin`, whose
module name `my_datasette_plugin` does not start with `datasette_`, the
code's entry-point key is `my_plugin`: the interior occurrence of
`datasette_` is removed, whereas stripping only a leading prefix (what
the claim states) would leave `my_datasette_plugin` unchanged. -/
theorem c1_entry_point_key_counterexample :
    entry_point_key (module_name_of "my-datasette-plugin") = "my_plugin"
    ∧ strip_only_leading "datasette_" (module_name_of "my-datasette-plugin")
        = "my_datasette_plugin"
    ∧ entry_point_key (module_name_of "my-datasette-plugin")
        ≠ strip_only_leading "datasette_" (module_name_of "my-datasette-plugin") := by
  refine ⟨by decide, by decide, by decide⟩

/-- C1 (amended): the manifest entry-point key equals `moduleName` with
every left-to-right non-overlapping occurrence of `datasette_` removed
(the concatenation of the pieces of `moduleName` split on `datasette_`),
not only a leading occurrence; and the manifest text contains the
entry-point line whose value is exactly `moduleName`. -/
theorem c1_entry_point_key_amended (name : String) :
    entry_point_key (module_name_of name)
      = String.mk (List.flatten (splitFuel (("datasette_").data)
          (module_name_of name).data.length (module_name_of name).data))
    ∧ contains_sub (entry_point_key (module_name_of name)
        ++ " = \"" ++ module_name_of name ++ "\"\n")
        (pyproject_content name (module_name_of name)) := by
  constructor
  · show String.mk (replaceFuel ("datasette_").data ("").data
        (module_name_of name).data.length (module_name_of name).data) = _
    rw [show ("" : String).data = ([] : List Char) from rfl,
      replaceFuel_nil_rep_join]
  · refine ⟨"[project]\n"
      ++ "name = \"" ++ name ++ "\"\n"
      ++ "version = \"0.1.0\"\n"
      ++ "description = \"A Datasette plugin\"\n"
      ++ "readme = \"README.md\"\n"
      ++ "requires-python = \">=3.10\"\n"
      ++ "license = \x7btext = \"Apache-2.0\"\x7d\n"
      ++ "authors = [\n"
      ++ "    \x7bname = \"Your Name\", email = \"you@example.com\"\x7d\n"
      ++ "]\n"
      ++ "dependencies = [\n"
      ++ "    \"datasette\"\n"
      ++ "]\n"
      ++ "[dependency-groups]\n"
      ++ "dev = [\n"
      ++ "    \"pytest\",\n"
      ++ "    \"pytest-asyncio\"\n"
      ++ "]\n"
      ++ "\n"
      ++ "[project.entry-points.datasette]\n",
      "\n"
      ++ "[build-system]\n"
      ++ "requires = [\"setuptools>=61.0\"]\n"
      ++ "build-backend = \"setuptools.build_meta\"\n", ?_⟩
    simp only [pyproject_content, String.append_assoc]

/-- C10: the packaging manifest contains the line `version = "0.1.0"`
and the module entry file contains the line `__version__ = "0.1.0"`,
for every plugin name and module name: the two version strings written
by the generator agree and both are the fixed literal `0.1.0`. -/
theorem c10_version_consistent (name module_name : String) :
    contains_sub "version = \"0.1.0\"\n" (pyproject_content name module_name)
    ∧ contains_sub "__version__ = \"0.1.0\"\n" (init_py_content name) := by
  constructor
  · refine ⟨"[project]\n" ++ "name = \"" ++ name ++ "\"\n",
      "description = \"A Datasette plugin\"\n"
      ++ "readme = \"README.md\"\n"
      ++ "requires-python = \">=3.10\"\n"
      ++ "license = \x7btext = \"Apache-2.0\"\x7d\n"
      ++ "authors = [\n"
      ++ "    \x7bname = \"Your Name\", email = \"you@example.com\"\x7d\n"
      ++ "]\n"
      ++ "dependencies = [\n"
      ++ "    \"datasette\"\n"
      ++ "]\n"
      ++ "[dependency-groups]\n"
      ++ "dev = [\n"
      ++ "    \"pytest\",\n"
      ++ "    \"pytest-asyncio\"\n"
      ++ "]\n"
      ++ "\n"
      ++ "[project.entry-points.datasette]\n"
      ++ entry_point_key module_name ++ " = \"" ++ module_name ++ "\"\n"
      ++ "\n"
      ++ "[build-system]\n"
      ++ "requires = [\"setuptools>=61.0\"]\n"
      ++ "build-backend = \"setuptools.build_meta\"\n", ?_⟩
    simp only [pyproject_content, String.append_assoc]
  · have hsplit : ("\n__version__ = \"0.1.0\"\n" : String)
        = "\n" ++ "__version__ = \"0.1.0\"\n" := by decide
    refine ⟨"\"\"\"\n" ++ name ++ "\n\nA Datasette plugin.\n\"\"\"\n"
      ++ "\nfrom datasette import hookimpl\n" ++ "\n",
      "\n\n@hookimpl\n"
      ++ "def prepare_connection(conn):\n"
      ++ "    \"\"\"Register custom SQL functions.\"\"\"\n"
      ++ "    # Example: Register a custom function\n"
      ++ "    # conn.create_function(\"my_function\", 1, lambda x: x.upper())\n"
      ++ "    pass\n"
      ++ "\n\n# Uncomment and customize the hooks you need:\n"
      ++ "\n# @hookimpl\n"
      ++ "# def register_routes():\n"
      ++ "#     \"\"\"Register custom URL routes.\"\"\"\n"
      ++ "#     return [\n"
      ++ "#         (r\"^/-/my-page$\", my_page_view),\n"
      ++ "#     ]\n"
      ++ "\n\n# async def my_page_view(datasette, request):\n"
      ++ "#     from datasette import Response\n"
      ++ "#     return Response.html(\"<h1>My Custom Page</h1>\")\n"
      ++ "\n\n# @hookimpl\n"
      ++ "# def startup(datasette):\n"
      ++ "#     \"\"\"Run on server startup.\"\"\"\n"
      ++ "#     async def inner():\n"
      ++ "#         config = datasette.plugin_config(\"" ++ name ++ "\") or \x7b\x7d\n"
      ++ "#         # Initialize plugin\n"
      ++ "#         pass\n"
      ++ "#     return inner\n"
      ++ "\n\n# @hookimpl\n"
      ++ "# def menu_links(datasette, actor):\n"
      ++ "#     \"\"\"Add items to the navigation menu.\"\"\"\n"
      ++ "#     return [\n"
      ++ "#         \x7b\"href\": datasette.urls.path(\"/-/my-page\"), \"label\": \"My Feature\"\x7d\n"
      ++ "#     ]\n"
      ++ "\n\n# @hookimpl\n"
      ++ "# def render_cell(value, column, table, database, datasette, request):\n"
      ++ "#     \"\"\"Customize cell rendering in table view.\"\"\"\n"
      ++ "#     return None  # Return None to use default rendering\n", ?_⟩
    rw [show init_py_content name
        = "\"\"\"\n" ++ name ++ "\n\nA Datasette plugin.\n\"\"\"\n"
          ++ "\nfrom datasette import hookimpl\n"
          ++ ("\n" ++ "__version__ = \"0.1.0\"\n")
          ++ "\n\n@hookimpl\n"
          ++ "def prepare_connection(conn):\n"
          ++ "    \"\"\"Register custom SQL functions.\"\"\"\n"
          ++ "    # Example: Register a custom function\n"
          ++ "    # conn.create_function(\"my_function\", 1, lambda x: x.upper())\n"
          ++ "    pass\n"
          ++ "\n\n# Uncomment and customize the hooks you need:\n"
          ++ "\n# @hookimpl\n"
          ++ "# def register_routes():\n"
          ++ "#     \"\"\"Register custom URL routes.\"\"\"\n"
          ++ "#     return [\n"
          ++ "#         (r\"^/-/my-page$\", my_page_view),\n"
          ++ "#     ]\n"
          ++ "\n\n# async def my_page_view(datasette, request):\n"
          ++ "#     from datasette import Response\n"
          ++ "#     return Response.html(\"<h1>My Custom Page</h1>\")\n"
          ++ "\n\n# @hookimpl\n"
          ++ "# def startup(datasette):\n"
          ++ "#     \"\"\"Run on server startup.\"\"\"\n"
          ++ "#     async def inner():\n"
          ++ "#         config = datasette.plugin_config(\"" ++ name ++ "\") or \x7b\x7d\n"
          ++ "#         # Initialize plugin\n"
          ++ "#         pass\n"
          ++ "#     return inner\n"
          ++ "\n\n# @hookimpl\n"
          ++ "# def menu_links(datasette, actor):\n"
          ++ "#     \"\"\"Add items to the navigation menu.\"\"\"\n"
          ++ "#     return [\n"
          ++ "#         \x7b\"href\": datasette.urls.path(\"/-/my-page\"), \"label\": \"My Feature\"\x7d\n"
          ++ "#     ]\n"
          ++ "\n\n# @hookimpl\n"
          ++ "# def render_cell(value, column, table, database, datasette, request):\n"
          ++ "#     \"\"\"Customize cell rendering in table view.\"\"\"\n"
          ++ "#     return None  # Return None to use default rendering\n"
      from by rw [init_py_content, hsplit]]
    simp only [String.append_assoc]


/-! ## No-rollback machinery (C7) -/

theorem runOps_append (l1 l2 : List Op) (r : StepState) :
    runOps (l1 ++ l2) r = runOps l2 (runOps l1 r) := by
  simp [runOps, List.foldl_append]

theorem step_files_mono (r : StepState) (op : Op) (p : Path)
    (h : ((r.fs).files p).isSome = true) :
    (((step r op).fs).files p).isSome = true := by
  obtain ⟨fs, err⟩ := r
  cases err with
  | some e => exact h
  | none =>
    cases op with
    | mkdir q =>
      by_cases hg : ((prefixes q).any fun x => (fs.files x).isSome) = true
      · simpa [step, applyOp, mkdir_p, hg] using h
      · simp only [Bool.not_eq_true] at hg
        simpa [step, applyOp, mkdir_p, hg, mkdir_apply] using h
    | write q c =>
      by_cases h1 : fs.dirs q = true
      · simpa [step, applyOp, write_text, h1] using h
      · simp only [Bool.not_eq_true] at h1
        cases h2 : fs.dirs q.dropLast with
        | false => simpa [step, applyOp, write_text, h1, h2] using h
        | true =>
          simp only [step, applyOp, write_text, h1, h2]
          by_cases hq : p = q
          · simp [write_apply, hq]
          · simpa [write_apply, hq] using h

theorem runOps_files_mono :
    ∀ (l : List Op) (r : StepState) (p : Path),
      ((r.fs).files p).isSome = true →
      (((runOps l r).fs).files p).isSome = true := by
  intro l
  induction l with
  | nil => intro r p h; exact h
  | cons op t ih =>
    intro r p h
    rw [runOps_cons]
    exact ih _ p (step_files_mono r op p h)

/-- C7: if any creation step of the run fails, the exception propagates
unchanged to the caller as the run's final error (no retry, no
recovery), and every file present on disk at any intermediate point of
the run — in particular every file written by the steps completed
before the failure — is still present at the end: there is no rollback
of partial results. -/
theorem c7_error_propagates_no_rollback (name : String) (output_dir : Path)
    (fs : FS) (k : Nat) (p : Path) (e : String) :
    ((create_plugin_truncated name output_dir fs k).err = some e →
      (create_plugin name output_dir fs).err = some e)
    ∧ (((create_plugin_truncated name output_dir fs k).fs.files p).isSome = true →
      ((create_plugin name output_dir fs).fs.files p).isSome = true) := by
  have hsplit : ops_of name output_dir
      = (ops_of name output_dir).take k ++ (ops_of name output_dir).drop k :=
    (List.take_append_drop k (ops_of name output_dir)).symm
  constructor
  · intro he
    have he' : (runOps ((ops_of name output_dir).take k)
        { fs := fs, err := none }).err = some e := he
    rw [create_plugin_err_eq, hsplit, runOps_append]
    cases hst : runOps ((ops_of name output_dir).take k)
        { fs := fs, err := none } with
    | mk pfs perr =>
      rw [hst] at he'
      rw [show (StepState.mk pfs perr).err = perr from rfl] at he'
      rw [he', runOps_absorb]
  · intro hp
    have hp' : ((runOps ((ops_of name output_dir).take k)
        { fs := fs, err := none }).fs.files p).isSome = true := hp
    rw [create_plugin_fs_eq, hsplit, runOps_append]
    exact runOps_files_mono _ _ p hp'

/-- A filesystem holding one regular file at path `x`: it blocks the
very first directory creation of a run with plugin name `x`. -/
def blocking_fs : FS :=
  { dirs := fun _ => false,
    files := fun q => if q = ["x"] then some "occupied" else none }

/-- Witness for C7: with a file blocking the first `mkdir`, the partial
run after one step carries the error, the full run reports the same
error, and the pre-existing file is still on disk afterwards. -/
theorem c7_error_propagates_no_rollback_witness :
    ((create_plugin_truncated "x" [] blocking_fs 1).err = some "FileExistsError"
      ∧ (create_plugin "x" [] blocking_fs).err = some "FileExistsError")
    ∧ (((create_plugin_truncated "x" [] blocking_fs 1).fs.files ["x"]).isSome = true
      ∧ ((create_plugin "x" [] blocking_fs).fs.files ["x"]).isSome = true) :=
  ⟨⟨rfl, (c7_error_propagates_no_rollback "x" [] blocking_fs 1 ["x"]
      "FileExistsError").1 rfl⟩,
   ⟨rfl, (c7_error_propagates_no_rollback "x" [] blocking_fs 1 ["x"]
      "FileExistsError").2 rfl⟩⟩


/-! ## Directory claims (C6) -/

theorem append_ne_self_of_ne_nil (l s : List String) (h : s ≠ []) : l ++ s ≠ l := by
  intro e
  have hlen : (l ++ s).length = l.length := by rw [e]
  rw [List.length_append] at hlen
  have : s.length = 0 := by omega
  exact h (List.length_eq_zero.mp this)

/-- C6: the generator's directory-creation calls target exactly the
three paths `outputDir/name`, `root/moduleName`, and `root/tests`, in
that order; a creation call succeeds whenever no regular file occupies
the target or an ancestor — in particular even when parent directories
are missing, and without failing when the directory already exists
(the `dirs` state is arbitrary) — and it makes the target and all its
ancestors directories; and every generated file is written strictly
inside the project root. -/
theorem c6_three_directories (name : String) (output_dir : Path) (fs : FS)
    (p : Path) (hfile : ∀ q ∈ prefixes p, fs.files q = none) :
    dirs_of name output_dir
      = [output_dir ++ [name], (output_dir ++ [name]) ++ [module_name_of name],
        (output_dir ++ [name]) ++ ["tests"]]
    ∧ mkdir_p p fs = Except.ok (mkdir_apply p fs)
    ∧ (∀ q, q.isPrefixOf p = true → (mkdir_apply p fs).dirs q = true)
    ∧ (∀ w ∈ writes_of name output_dir,
        (plugin_dir_of name output_dir).isPrefixOf w.1 = true
        ∧ w.1 ≠ plugin_dir_of name output_dir) := by
  refine ⟨by simp [dirs_of, plugin_dir_of, module_dir_of, tests_dir_of], ?_, ?_, ?_⟩
  · have hg : ((prefixes p).any fun q => (fs.files q).isSome) = false :=
      List.any_eq_false.mpr (fun q hq => by simp [hfile q hq])
    simp [mkdir_p, hg]
  · intro q hq
    simp [mkdir_apply, hq]
  · intro w hw
    simp only [writes_of, List.mem_cons, List.not_mem_nil, or_false] at hw
    rcases hw with rfl | rfl | rfl | rfl | rfl | rfl | rfl <;>
      refine ⟨?_, ?_⟩ <;>
      simp [module_dir_of, tests_dir_of, List.append_assoc,
        isPrefixOf_append_left, append_ne_self_of_ne_nil]

/-- Witness for C6: concrete instantiation creating a nested directory
on the empty filesystem, with the first generated file inside the
project root. -/
theorem c6_three_directories_witness :
    dirs_of "datasette-demo" ["o"]
      = [["o"] ++ ["datasette-demo"],
        (["o"] ++ ["datasette-demo"]) ++ [module_name_of "datasette-demo"],
        (["o"] ++ ["datasette-demo"]) ++ ["tests"]]
    ∧ mkdir_p ["a", "b"] FS.empty = Except.ok (mkdir_apply ["a", "b"] FS.empty)
    ∧ (mkdir_apply ["a", "b"] FS.empty).dirs ["a"] = true
    ∧ ((plugin_dir_of "datasette-demo" ["o"]).isPrefixOf
        (plugin_dir_of "datasette-demo" ["o"] ++ ["pyproject.toml"]) = true
      ∧ plugin_dir_of "datasette-demo" ["o"] ++ ["pyproject.toml"]
        ≠ plugin_dir_of "datasette-demo" ["o"]) := by
  have h := c6_three_directories "datasette-demo" ["o"] FS.empty ["a", "b"]
    (by decide)
  exact ⟨h.1, h.2.1, h.2.2.1 ["a"] (by decide),
    h.2.2.2 _ (List.mem_cons_self _ _)⟩


/-! ## File-existence claims (C4) -/

theorem ne_empty_of_right (s t : String) (h : t.length ≠ 0) : s ++ t ≠ "" := by
  intro e
  have hlen := congrArg String.length e
  rw [String.length_append] at hlen
  rw [show ("" : String).length = 0 from rfl] at hlen
  omega

/-- C4 counterexample: for the plugin name `tests`, the run succeeds,
but the module directory coincides with the tests directory, so the
empty tests-package marker overwrites the module entry file: the module
entry file ends up empty, although its generated content is non-empty. -/
theorem c4_counterexample :
    (create_plugin "tests" [] FS.empty).err = none
    ∧ (create_plugin "tests" [] FS.empty).fs.files
        (module_dir_of "tests" [] ++ ["__init__.py"]) = some ""
    ∧ init_py_content "tests" ≠ "" := by
  refine ⟨rfl, rfl, ?_⟩
  refine ne_empty_of_right _ _ ?_
  decide

set_option maxHeartbeats 2000000 in
/-- C4 (amended): after every successful run whose module name is not
the literal `tests` (for that name the module directory coincides with
the tests directory and the empty marker overwrites the module entry
file), all seven output files exist under the project root with the
generated contents — and every content is non-empty except the
tests-package marker, which is empty. -/
theorem c4_seven_files (name : String) (output_dir : Path) (fs : FS)
    (h : (create_plugin name output_dir fs).err = none)
    (hmn : module_name_of name ≠ "tests") :
    ((create_plugin name output_dir fs).fs.files
        (plugin_dir_of name output_dir ++ ["pyproject.toml"])
      = some (pyproject_content name (module_name_of name))
    ∧ (create_plugin name output_dir fs).fs.files
        (plugin_dir_of name output_dir ++ ["README.md"])
      = some (readme_content name)
    ∧ (create_plugin name output_dir fs).fs.files
        (module_dir_of name output_dir ++ ["__init__.py"])
      = some (init_py_content name)
    ∧ (create_plugin name output_dir fs).fs.files
        (tests_dir_of name output_dir ++ ["__init__.py"]) = some ""
    ∧ (create_plugin name output_dir fs).fs.files
        (tests_dir_of name output_dir
          ++ ["test_" ++ module_name_of name ++ ".py"])
      = some (test_py_content name)
    ∧ (create_plugin name output_dir fs).fs.files
        (plugin_dir_of name output_dir ++ ["pytest.ini"])
      = some pytest_ini_content
    ∧ (create_plugin name output_dir fs).fs.files
        (plugin_dir_of name output_dir ++ [".gitignore"])
      = some gitignore_content)
    ∧ (pyproject_content name (module_name_of name) ≠ ""
    ∧ readme_content name ≠ ""
    ∧ init_py_content name ≠ ""
    ∧ test_py_content name ≠ ""
    ∧ pytest_ini_content ≠ ""
    ∧ gitignore_content ≠ "") := by
  have hok := (create_plugin_ok_iff name output_dir fs).mp h
  have hfs := create_plugin_fs_of_ok name output_dir fs hok
  have htf : ("__init__.py" : String) ≠ "test_" ++ module_name_of name ++ ".py" :=
    ne_of_head _ _ (by
      rw [show ("__init__.py" : String).data.head? = some ('_') from rfl,
        show ("test_" ++ module_name_of name ++ ".py").data.head? = some ('t')
          from rfl]
      decide)
  have hl1 : lastVal (writes_of name output_dir)
      (plugin_dir_of name output_dir ++ ["pyproject.toml"])
      = some (pyproject_content name (module_name_of name)) := by
    simp [lastVal, writes_of, module_dir_of, tests_dir_of, List.append_assoc,
      List.append_right_inj, hmn, htf]
  have hl2 : lastVal (writes_of name output_dir)
      (plugin_dir_of name output_dir ++ ["README.md"])
      = some (readme_content name) := by
    simp [lastVal, writes_of, module_dir_of, tests_dir_of, List.append_assoc,
      List.append_right_inj, hmn, htf]
  have hl3 : lastVal (writes_of name output_dir)
      (module_dir_of name output_dir ++ ["__init__.py"])
      = some (init_py_content name) := by
    simp [lastVal, writes_of, module_dir_of, tests_dir_of, List.append_assoc,
      List.append_right_inj, hmn, htf]
  have hl4 : lastVal (writes_of name output_dir)
      (tests_dir_of name output_dir ++ ["__init__.py"]) = some "" := by
    simp [lastVal, writes_of, module_dir_of, tests_dir_of, List.append_assoc,
      List.append_right_inj, hmn, htf]
  have hl5 : lastVal (writes_of name output_dir)
      (tests_dir_of name output_dir ++ ["test_" ++ module_name_of name ++ ".py"])
      = some (test_py_content name) := by
    simp [lastVal, writes_of, module_dir_of, tests_dir_of, List.append_assoc,
      List.append_right_inj, hmn, htf]
  have hl6 : lastVal (writes_of name output_dir)
      (plugin_dir_of name output_dir ++ ["pytest.ini"])
      = some pytest_ini_content := by
    simp [lastVal, writes_of, module_dir_of, tests_dir_of, List.append_assoc,
      List.append_right_inj, hmn, htf]
  have hl7 : lastVal (writes_of name output_dir)
      (plugin_dir_of name output_dir ++ [".gitignore"])
      = some gitignore_content := by
    simp [lastVal, writes_of, module_dir_of, tests_dir_of, List.append_assoc,
      List.append_right_inj, hmn, htf]
  rw [hfs]
  simp only [success_fs]
  refine ⟨⟨?_, ?_, ?_, ?_, ?_, ?_, ?_⟩, ?_, ?_, ?_, ?_, ?_, ?_⟩
  · rw [applyWrites_eq_lastVal, hl1]
  · rw [applyWrites_eq_lastVal, hl2]
  · rw [applyWrites_eq_lastVal, hl3]
  · rw [applyWrites_eq_lastVal, hl4]
  · rw [applyWrites_eq_lastVal, hl5]
  · rw [applyWrites_eq_lastVal, hl6]
  · rw [applyWrites_eq_lastVal, hl7]
  · refine ne_empty_of_right _ _ ?_
    decide
  · refine ne_empty_of_right _ _ ?_
    decide
  · refine ne_empty_of_right _ _ ?_
    decide
  · refine ne_empty_of_right _ _ ?_
    decide
  · decide
  · refine ne_empty_of_right _ _ ?_
    decide

/-- Witness for C4 at a concrete successful run. -/
theorem c4_seven_files_witness :
    (create_plugin "datasette-hello" [] FS.empty).err = none
    ∧ module_name_of "datasette-hello" ≠ "tests"
    ∧ (create_plugin "datasette-hello" [] FS.empty).fs.files
        (plugin_dir_of "datasette-hello" [] ++ ["pyproject.toml"])
      = some (pyproject_content "datasette-hello"
          (module_name_of "datasette-hello"))
    ∧ pyproject_content "datasette-hello" (module_name_of "datasette-hello")
      ≠ "" := by
  have h := c4_seven_files "datasette-hello" [] FS.empty rfl (by decide)
  exact ⟨rfl, by decide, h.1.1, h.2.1⟩


/-! ## Fresh-filesystem runs (C5, C8) -/

theorem singleton_isPrefixOf_singleton (x y : String) :
    ([x].isPrefixOf [y] : Bool) = (x == y) := by
  simp [List.isPrefixOf]

theorem pair_isPrefixOf_singleton (x₁ x₂ y : String) :
    ([x₁, x₂].isPrefixOf [y] : Bool) = false := by
  simp [List.isPrefixOf]

theorem run_ok_empty (name : String) (output_dir : Path)
    (h1 : "pyproject.toml" ≠ module_name_of name)
    (h2 : "README.md" ≠ module_name_of name)
    (h3 : "pytest.ini" ≠ module_name_of name)
    (h4 : ".gitignore" ≠ module_name_of name) :
    run_ok name output_dir FS.empty := by
  constructor
  · intro d _
    exact List.any_eq_false.mpr (fun q _ => by simp [FS.empty])
  · intro w hw
    simp only [writes_of, List.mem_cons, List.not_mem_nil, or_false] at hw
    rcases hw with rfl | rfl | rfl | rfl | rfl | rfl | rfl <;>
      simp [dirs_after, mkdir_apply, FS.empty, module_dir_of, tests_dir_of,
        List.append_assoc, isPrefixOf_cancel, append_not_isPrefixOf,
        singleton_isPrefixOf_singleton, pair_isPrefixOf_singleton,
        beq_eq_false_iff_ne, h1, h2, h3, h4]

theorem run_ok_empty_iff (name : String) (output_dir : Path) :
    run_ok name output_dir FS.empty
      ↔ ("pyproject.toml" ≠ module_name_of name
        ∧ "README.md" ≠ module_name_of name
        ∧ "pytest.ini" ≠ module_name_of name
        ∧ ".gitignore" ≠ module_name_of name) := by
  constructor
  · intro h
    have g1 := h.2 (plugin_dir_of name output_dir ++ ["pyproject.toml"],
      pyproject_content name (module_name_of name)) (by simp [writes_of])
    have g2 := h.2 (plugin_dir_of name output_dir ++ ["README.md"],
      readme_content name) (by simp [writes_of])
    have g3 := h.2 (plugin_dir_of name output_dir ++ ["pytest.ini"],
      pytest_ini_content) (by simp [writes_of])
    have g4 := h.2 (plugin_dir_of name output_dir ++ [".gitignore"],
      gitignore_content) (by simp [writes_of])
    simp only [dirs_after, mkdir_apply, FS.empty, module_dir_of, tests_dir_of,
      Bool.or_eq_false_iff, isPrefixOf_cancel, singleton_isPrefixOf_singleton,
      beq_eq_false_iff_ne] at g1 g2 g3 g4
    exact ⟨g1.1.2, g2.1.2, g3.1.2, g4.1.2⟩
  · rintro ⟨h1, h2, h3, h4⟩
    exact run_ok_empty name output_dir h1 h2 h3 h4

theorem lastVal_isSome_of_mem :
    ∀ (ws : List (Path × String)) (w : Path × String), w ∈ ws →
      (lastVal ws w.1).isSome = true := by
  intro ws
  induction ws with
  | nil => intro w hw; simp at hw
  | cons v t ih =>
    intro w hw
    rcases List.mem_cons.mp hw with rfl | hmem
    · cases hl : lastVal t w.1 <;> simp [lastVal, hl]
    · have hs := ih w hmem
      cases hl : lastVal t w.1 with
      | none => rw [hl] at hs; simp at hs
      | some u => simp [lastVal, hl]

/-- C5 counterexample: the name `README.md` does not start with
`datasette-`, yet the run does not complete successfully even on a
fresh filesystem: the module directory occupies the path of the README
write, so the run fails with an exception — the warning is not the only
behavioural difference for every non-prefixed name. -/
theorem c5_counterexample :
    starts_with "README.md" "datasette-" = false
    ∧ (create_plugin "README.md" [] FS.empty).err ≠ none := by
  exact ⟨by decide, by decide⟩

/-- C5 (amended): for every name whose module name is none of the four
fixed top-level file names (for those the module directory collides
with one of the file writes and the run fails), running against a
fresh filesystem completes successfully, creates the three directories
and all seven files, and its printed output is the success messages
prefixed by the warning exactly when the name does not start with
`datasette-`: the warning is the only behavioural difference of the
prefix check. -/
theorem c5_warning_nonfatal (name : String) (output_dir : Path)
    (h1 : "pyproject.toml" ≠ module_name_of name)
    (h2 : "README.md" ≠ module_name_of name)
    (h3 : "pytest.ini" ≠ module_name_of name)
    (h4 : ".gitignore" ≠ module_name_of name) :
    (create_plugin name output_dir FS.empty).err = none
    ∧ (create_plugin name output_dir FS.empty).fs.dirs
        (plugin_dir_of name output_dir) = true
    ∧ (create_plugin name output_dir FS.empty).fs.dirs
        (module_dir_of name output_dir) = true
    ∧ (create_plugin name output_dir FS.empty).fs.dirs
        (tests_dir_of name output_dir) = true
    ∧ (∀ w ∈ writes_of name output_dir,
        ((create_plugin name output_dir FS.empty).fs.files w.1).isSome = true)
    ∧ (create_plugin name output_dir FS.empty).out
      = (if starts_with name "datasette-" then [] else [warning_message])
        ++ done_prints name output_dir := by
  have hok := run_ok_empty name output_dir h1 h2 h3 h4
  have hfs := create_plugin_fs_of_ok name output_dir FS.empty hok
  refine ⟨(create_plugin_ok_iff name output_dir FS.empty).mpr hok, ?_, ?_, ?_, ?_, ?_⟩
  · rw [hfs]
    exact dirs_after_parent_plugin name output_dir FS.empty
  · rw [hfs]
    exact dirs_after_parent_module name output_dir FS.empty
  · rw [hfs]
    exact dirs_after_parent_tests name output_dir FS.empty
  · intro w hw
    rw [hfs]
    simp only [success_fs]
    rw [applyWrites_eq_lastVal]
    have hs := lastVal_isSome_of_mem (writes_of name output_dir) w hw
    cases hl : lastVal (writes_of name output_dir) w.1 with
    | none => rw [hl] at hs; simp at hs
    | some v => simp
  · rw [create_plugin_out_eq, runOps_of_run_ok name output_dir FS.empty hok]

/-- Witness for C5: the non-prefixed name `my-plugin` on a fresh
filesystem completes, and its output is exactly the warning followed by
the success messages. -/
theorem c5_warning_nonfatal_witness :
    (create_plugin "my-plugin" ["out"] FS.empty).err = none
    ∧ (create_plugin "my-plugin" ["out"] FS.empty).out
      = (if starts_with "my-plugin" "datasette-" then [] else [warning_message])
        ++ done_prints "my-plugin" ["out"]
    ∧ ((create_plugin "my-plugin" ["out"] FS.empty).fs.files
        (plugin_dir_of "my-plugin" ["out"] ++ ["pyproject.toml"])).isSome = true := by
  have h := c5_warning_nonfatal "my-plugin" ["out"]
    (by decide) (by decide) (by decide) (by decide)
  exact ⟨h.1, h.2.2.2.2.2, h.2.2.2.2.1 _ (List.mem_cons_self _ _)⟩

theorem lastVal_writes_shift (name : String) (d : Path) (p : Path) :
    lastVal (writes_of name d) (d ++ p) = lastVal (writes_of name []) p := by
  simp only [writes_of, plugin_dir_of, module_dir_of, tests_dir_of, lastVal,
    List.nil_append, List.append_assoc, List.cons_append]
  simp [List.append_right_inj]

/-- C8: the generated file contents are a function of the plugin name
alone: for two runs with the same name on a fresh filesystem but
different output directories, the list of the seven generated contents
is identical, the second run succeeds whenever the first does, and the
resulting file maps agree pointwise relative to the respective output
directories (only file locations, not contents, depend on the
directory). -/
theorem c8_contents_independent_of_dir (name : String) (d₁ d₂ : Path) (p : Path)
    (h : (create_plugin name d₁ FS.empty).err = none) :
    (writes_of name d₁).map Prod.snd = (writes_of name d₂).map Prod.snd
    ∧ (create_plugin name d₂ FS.empty).err = none
    ∧ (create_plugin name d₁ FS.empty).fs.files (d₁ ++ p)
      = (create_plugin name d₂ FS.empty).fs.files (d₂ ++ p) := by
  have hok1 := (create_plugin_ok_iff name d₁ FS.empty).mp h
  have hcond := (run_ok_empty_iff name d₁).mp hok1
  have hok2 := (run_ok_empty_iff name d₂).mpr hcond
  refine ⟨by simp [writes_of],
    (create_plugin_ok_iff name d₂ FS.empty).mpr hok2, ?_⟩
  rw [create_plugin_fs_of_ok name d₁ FS.empty hok1,
    create_plugin_fs_of_ok name d₂ FS.empty hok2]
  simp only [success_fs]
  rw [applyWrites_eq_lastVal, applyWrites_eq_lastVal,
    lastVal_writes_shift name d₁ p, lastVal_writes_shift name d₂ p]
  cases hl : lastVal (writes_of name []) p <;> simp [hl, FS.empty]

/-- Witness for C8 at a concrete name, two directories, and the
manifest path. -/
theorem c8_contents_independent_of_dir_witness :
    (writes_of "datasette-hello" ["a"]).map Prod.snd
      = (writes_of "datasette-hello" ["b"]).map Prod.snd
    ∧ (create_plugin "datasette-hello" ["b"] FS.empty).err = none
    ∧ (create_plugin "datasette-hello" ["a"] FS.empty).fs.files
        (["a"] ++ ["datasette-hello", "pyproject.toml"])
      = (create_plugin "datasette-hello" ["b"] FS.empty).fs.files
        (["b"] ++ ["datasette-hello", "pyproject.toml"]) :=
  c8_contents_independent_of_dir "datasette-hello" ["a"] ["b"]
    ["datasette-hello", "pyproject.toml"] rfl


/-! ## Warning condition (C9) -/

theorem warning_not_mem_done_prints (name : String) (output_dir : Path) :
    warning_message ∉ done_prints name output_dir := by
  intro h
  simp only [done_prints, List.mem_cons, List.not_mem_nil, or_false] at h
  rcases h with h | h | h | h | h
  · exact (ne_of_head _ _ (by
      rw [show warning_message.data.head? = some ('W') from rfl,
        show ("Created plugin at: "
          ++ path_string (plugin_dir_of name output_dir)).data.head?
          = some ('C') from rfl]
      decide)) h
  · exact absurd h (by decide)
  · exact (ne_of_head _ _ (by
      rw [show warning_message.data.head? = some ('W') from rfl,
        show ("  cd " ++ path_string (plugin_dir_of name output_dir)).data.head?
          = some (' ') from rfl]
      decide)) h
  · exact absurd h (by decide)
  · exact absurd h (by decide)

/-- C9: the expected prefix is the exact case-sensitive literal
`datasette-`: over every run, the warning line appears in the printed
output iff the name does not start with that exact character sequence;
in particular the name `Datasette-foo`, capitalized, triggers the
warning. -/
theorem c9_prefix_check_case_sensitive (name : String) (output_dir : Path)
    (fs : FS) :
    (warning_message ∈ (create_plugin name output_dir fs).out
      ↔ starts_with name "datasette-" = false)
    ∧ warning_message ∈ (create_plugin "Datasette-foo" [] FS.empty).out := by
  constructor
  · rw [create_plugin_out_eq]
    constructor
    · intro hm
      rcases List.mem_append.mp hm with hm | hm
      · cases hst : starts_with name "datasette-" with
        | false => rfl
        | true => rw [hst] at hm; simp at hm
      · exfalso
        cases herr : (runOps (ops_of name output_dir)
            { fs := fs, err := none }).err with
        | none =>
          rw [herr] at hm
          exact warning_not_mem_done_prints name output_dir hm
        | some e => rw [herr] at hm; simp at hm
    · intro hs
      apply List.mem_append_left
      rw [hs]
      simp
  · rw [create_plugin_out_eq,
      show starts_with "Datasette-foo" "datasette-" = false from by decide]
    apply List.mem_append_left
    simp

end InitPlugin
